import Mathlib

/-!
Shallow embedding of `tdw/py_impact.py` (impact-sound synthesizer) and proofs
about its specification claims.

Conventions of the embedding:
* Python floats are modelled as real numbers (`ℝ`); numpy arrays as `List ℝ`.
* Stateful methods of `PyImpact` become functions from an explicit state
  (`PyImpact` structure) to a new state.
* Random draws (`np.random.normal`) are passed in explicitly as noise inputs.
* Fallible code is modelled with `Except Unit` (an uncaught Python exception
  becomes `Except.error ()`) and `Option` (Python `None` becomes `none`).
-/

namespace TDW

noncomputable section

/-! ## Numpy-style list helpers -/

/-- `np.max` over a 1-d array. `np.max` raises on an empty array; the claims
only use it on non-empty arrays, where this total model agrees with numpy. -/
def np_max : List ℝ → ℝ
  | [] => 0
  | [x] => x
  | x :: y :: t => max x (np_max (y :: t))

/-- `np.mean` of a list (sum divided by length; numpy yields NaN on an empty
array, here division by zero yields 0). -/
def mean (l : List ℝ) : ℝ := l.sum / l.length

/-- `np.clip(x, lo, hi)`: equivalent to `np.minimum(hi, np.maximum(x, lo))`. -/
def clip (x lo hi : ℝ) : ℝ := min hi (max x lo)

/-- `np.linspace(a, b, n)`: `n` evenly spaced samples from `a` to `b`,
endpoints included (`[a]` for `n = 1`, empty for `n = 0`). -/
def linspace (a b : ℝ) (n : ℕ) : List ℝ :=
  if n = 1 then [a]
  else (List.range n).map (fun k : ℕ => a + (b - a) * (k : ℝ) / ((n : ℝ) - 1))

/-- Full linear convolution, as computed by `scipy.signal.fftconvolve` in
`"full"` mode: output length `len a + len b - 1`, empty if either input is
empty. -/
def convolve (a b : List ℝ) : List ℝ :=
  if a.length = 0 ∨ b.length = 0 then []
  else
    (List.range (a.length + b.length - 1)).map (fun n =>
      ((List.range (n + 1)).map (fun k => a.getD k 0 * b.getD (n - k) 0)).sum)

/-! ## 3-vectors (relative velocities and contact normals) -/

structure Vec3 where
  x : ℝ
  y : ℝ
  z : ℝ

/-- `np.linalg.norm v` (also `sqrt(np.sum(np.square(v)))` as computed at the
top of `get_sound`). -/
def norm3 (v : Vec3) : ℝ := Real.sqrt (v.x ^ 2 + v.y ^ 2 + v.z ^ 2)

/-- `v / np.linalg.norm(v)`. -/
def unit3 (v : Vec3) : Vec3 := ⟨v.x / norm3 v, v.y / norm3 v, v.z / norm3 v⟩

/-- `np.dot`. -/
def dot3 (a b : Vec3) : ℝ := a.x * b.x + a.y * b.y + a.z * b.z

/-! ## `Modes`: resonant mode properties -/

/-- `Modes`: frequencies (Hz), onset powers (dB re 1), decay times (ms, time
to decay 60 dB). The extra field `power` models the attribute created by the
assignment `modes_2.power = ...` on line 330 of `py_impact.py` (a fresh
attribute, distinct from `powers`); it is `none` until that line runs and is
never read anywhere. -/
structure Modes where
  frequencies : List ℝ
  powers : List ℝ
  decay_times : List ℝ
  power : Option (List ℝ)

/-- The time series of mode `i` inside `Modes.sum_modes`: a cosine carrier at
`frequencies[i]`, scaled to linear amplitude `10^(powers[i]/20)`, under an
exponential envelope falling 60 dB per `decay_times[i]` milliseconds, over
`ceil(L_ms/1e3*fs)` samples. Out-of-range indexing (impossible for same-length
field lists) yields 0 here where Python would raise `IndexError`. -/
def mode_sig (m : Modes) (fs : ℕ) (i : ℕ) : List ℝ :=
  let f := m.frequencies.getD i 0
  let p := m.powers.getD i 0
  let d := m.decay_times.getD i 0
  let H_dB := 80 + p
  let L_ms := d * H_dB / 60
  let mLen := (⌈L_ms / 1000 * (fs : ℝ)⌉).toNat
  (List.range mLen).map (fun k : ℕ =>
    Real.cos (2 * Real.pi * f * ((k : ℝ) / (fs : ℝ))) * (10 : ℝ) ^ (p / 20) *
      (10 : ℝ) ^ (-(((k : ℝ) / (fs : ℝ)) * (60 / (d / 1000))) / 20))

/-- `Modes.mode_add`: add arrays of different lengths by zero-padding the
shorter one. -/
def mode_add (a b : List ℝ) : List ℝ :=
  if a.length < b.length then
    List.zipWith (fun u v => u + v) (a ++ List.replicate (b.length - a.length) 0) b
  else
    List.zipWith (fun u v => u + v) a (b ++ List.replicate (a.length - b.length) 0)

/-- `Modes.sum_modes`: render each mode and sum them with `mode_add`. With no
modes at all Python would hit an unbound local (`synth_sound`); the model
returns the empty signal, a case no claim exercises. -/
def Modes.sum_modes (m : Modes) (fs : ℕ) : List ℝ :=
  match (List.range m.frequencies.length).map (mode_sig m fs) with
  | [] => []
  | s :: ss => ss.foldl mode_add s

/-! ## Contact pulse and `synth_impact_modes` -/

/-- The contact time used in `synth_impact_modes`: `max_t = 0.001 * mass`
clamped by `np.min([max_t, 2e-3])`. -/
def contact_duration (mass : ℝ) : ℝ := min (0.001 * mass) 0.002

/-- The half-sine force pulse: `np.sin(np.linspace(0, np.pi, n_pts))` with
`n_pts = int(np.ceil(max_t * 44100))`. -/
def contact_pulse (mass : ℝ) : List ℝ :=
  (linspace 0 Real.pi (⌈contact_duration mass * 44100⌉).toNat).map Real.sin

/-- `PyImpact.synth_impact_modes`: sum both objects' modes, return `None` for
a zero-length combined signal, otherwise convolve with the contact pulse and
divide by `abs(np.max(x))`. -/
def synth_impact_modes (modes1 modes2 : Modes) (mass : ℝ) : Option (List ℝ) :=
  let h := mode_add (Modes.sum_modes modes1 44100) (Modes.sum_modes modes2 44100)
  if h.length = 0 then none
  else
    let x := convolve h (contact_pulse mass)
    some (x.map (fun v => v / |np_max x|))

/-! ## 16-bit PCM encoding (`Base64Sound`) -/

/-- Conversion of a Python float to C `int16` by numpy's cast: truncation
toward zero, then wraparound modulo `2^16` into `[-32768, 32768)`. -/
def to_int16 (v : ℝ) : ℤ :=
  ((if 0 ≤ v then ⌊v⌋ else ⌈v⌉) + 32768) % 65536 - 32768

/-- The two little-endian bytes of an `int16` value. -/
def int16_le_bytes (n : ℤ) : List ℕ :=
  [(n % 65536).toNat % 256, (n % 65536).toNat / 256]

/-- `bytes(np.array(snd * 32767, dtype='int16'))`: the raw little-endian
byte buffer of the scaled 16-bit samples. -/
def pcm16_bytes (snd : List ℝ) : List ℕ :=
  snd.flatMap (fun v => int16_le_bytes (to_int16 (v * 32767)))

/-- `Base64Sound`: the PCM byte buffer (whose base64 text `wav_str` is a
bijective re-encoding we do not model) and `length = len(tst2)`, the byte
count of the buffer before base64 wrapping. -/
structure Base64Sound where
  wav_bytes : List ℕ
  length : ℕ

/-- The `Base64Sound` constructor applied to a float signal. -/
def Base64Sound.ofSignal (snd : List ℝ) : Base64Sound :=
  ⟨pcm16_bytes snd, (pcm16_bytes snd).length⟩

/-! ## Material templates and stochastic mode sampling -/

/-- One material's JSON template: center frequencies `cf` (Hz), onset powers
`op` (dB), decay times `rt` (seconds). The backing JSON files are external
data, so templates are parameters of the model. -/
structure MatTemplate where
  cf : List ℝ
  op : List ℝ
  rt : List ℝ

/-- The rejection loop `x = 0; while x < floor: x = draw()`: the accepted
value is the first draw that is not below the floor (`none` when the supplied
finite draw list is exhausted — the source would keep drawing). -/
def accept_first (floor : ℝ) : List ℝ → Option ℝ
  | [] => none
  | d :: ds => if floor ≤ d then some d else accept_first floor ds

/-- The noise consumed by `_get_object_modes` for one material: per-mode
streams of frequency draws and decay draws (each draw is the Gaussian offset
added to the template value) and one power draw per mode. -/
structure SampleNoise where
  freq_draws : List (List ℝ)
  power_draws : List ℝ
  decay_draws : List (List ℝ)

/-- One iteration of the `jm` loop of `_get_object_modes`: frequency redrawn
until `≥ 20` Hz, decay time redrawn until `≥ 0.001` s then stored as
milliseconds, power drawn once. -/
def sample_mode (data : MatTemplate) (nz : SampleNoise) (jm : ℕ) :
    Option (ℝ × ℝ × ℝ) :=
  match accept_first 20 ((nz.freq_draws.getD jm []).map (fun d => data.cf.getD jm 0 + d)),
        accept_first 0.001 ((nz.decay_draws.getD jm []).map (fun d => data.rt.getD jm 0 + d)) with
  | some jf, some jt =>
      some (jf, data.op.getD jm 0 + nz.power_draws.getD jm 0, jt * 1000)
  | _, _ => none

/-- Collect the sampled `(frequency, power, decay)` triples of the given mode
indices, failing if any rejection stream is exhausted. -/
def sample_rows (data : MatTemplate) (nz : SampleNoise) : List ℕ → Option (List (ℝ × ℝ × ℝ))
  | [] => some []
  | j :: js =>
    match sample_mode data nz j, sample_rows data nz js with
    | some r, some rs => some (r :: rs)
    | _, _ => none

/-- `PyImpact._get_object_modes`: sample the 10 canonical modes of a material
template into a `Modes` value. -/
def _get_object_modes (data : MatTemplate) (nz : SampleNoise) : Option Modes :=
  match sample_rows data nz (List.range 10) with
  | some rows =>
      some ⟨rows.map (fun r => r.1), rows.map (fun r => r.2.1), rows.map (fun r => r.2.2), none⟩
  | none => none

/-! ## Collision events and rigidbody snapshots -/

/-- A collision event: `Collision` output data (with an explicit relative
velocity) or `EnvironmentCollision` output data. Both carry contact normals. -/
inductive CollisionEvent where
  | body (relative_velocity : Vec3) (contacts : List Vec3)
  | env (contacts : List Vec3)

/-- `isinstance(collision, Collision)`. -/
def is_body : CollisionEvent → Bool
  | CollisionEvent.body _ _ => true
  | CollisionEvent.env _ => false

/-- The contact normals of either event kind. -/
def contacts_of : CollisionEvent → List Vec3
  | CollisionEvent.body _ cts => cts
  | CollisionEvent.env cts => cts

/-- One row of `Rigidbodies` output data. -/
structure Rigidbody where
  id : ℤ
  mass : ℝ
  velocity : Vec3

def rbDefault : Rigidbody := ⟨0, 0, ⟨0, 0, 0⟩⟩

/-- The first rigidbody row with the given id (the `break`-terminated scan of
lines 279-282). -/
def find_body : List Rigidbody → ℤ → Option Rigidbody
  | [], _ => none
  | b :: t, i => if b.id = i then some b else find_body t i

/-- The index the `for` loop of lines 301-305 leaves behind: the loop has no
`break`, so the last matching row wins. -/
def last_index_aux : List Rigidbody → ℤ → ℕ → Option ℕ
  | [], _, _ => none
  | b :: t, i, k =>
    match last_index_aux t i (k + 1) with
    | some j => some j
    | none => if b.id = i then some k else none

def last_index (bodies : List Rigidbody) (i : ℤ) : Option ℕ := last_index_aux bodies i 0

/-- The velocity used for the normal-speed computation (lines 275-282): the
relative velocity of a `Collision`, or for an `EnvironmentCollision` the
velocity of body `id2`, defaulting to the scalar 0 (modelled as the zero
vector) when `id2` is not in the snapshot. -/
def collision_velocity (collision : CollisionEvent) (bodies : List Rigidbody) (id2 : ℤ) : Vec3 :=
  match collision with
  | CollisionEvent.body rv _ => rv
  | CollisionEvent.env _ => ((find_body bodies id2).map Rigidbody.velocity).getD ⟨0, 0, 0⟩

/-- One contact's entry of `nspd` (lines 290-296): `speed * cos(arccos(clip(
dot(normal/|normal|, nvel), -1, 1)))`. -/
def contact_speed (speed : ℝ) (nvel n : Vec3) : ℝ :=
  speed * Real.cos (Real.arccos (clip (dot3 (unit3 n) nvel) (-1) 1))

/-- `normal_speed` (lines 274-297): the mean over contact points of the
relative speed projected on each contact normal. -/
def normal_speed (collision : CollisionEvent) (bodies : List Rigidbody) (id2 : ℤ) : ℝ :=
  let vel := collision_velocity collision bodies id2
  mean ((contacts_of collision).map (fun c => contact_speed (norm3 vel) (unit3 vel) c))

/-! ## Pair state and the `PyImpact` synthesizer -/

/-- `CollisionInfo`: per ordered pair memory (collision count, base amplitude,
reference impact speed of the first collision, both cached `Modes`). -/
structure CollisionInfo where
  count : ℕ
  amp : ℝ
  init_speed : ℝ
  obj1_modes : Modes
  obj2_modes : Modes

/-- `PyImpact` state: configuration plus the pair cache `object_modes`
(`Dict[int, Dict[int, CollisionInfo]]` keyed by `[id2][id1]`, modelled as an
association list keyed by the ordered pair `(id2, id1)`) and the material
templates loaded at construction. -/
structure PyImpact where
  initial_amp : ℝ
  prevent_distortion : Bool
  object_modes : List ((ℤ × ℤ) × CollisionInfo)
  material_data : List (String × MatTemplate)

/-- Lookup in the pair cache. -/
def find_pair : List ((ℤ × ℤ) × CollisionInfo) → ℤ × ℤ → Option CollisionInfo
  | [], _ => none
  | e :: t, k => if e.1 = k then some e.2 else find_pair t k

/-- Insert-or-replace in the pair cache. -/
def upsert : List ((ℤ × ℤ) × CollisionInfo) → ℤ × ℤ → CollisionInfo →
    List ((ℤ × ℤ) × CollisionInfo)
  | [], k, v => [(k, v)]
  | e :: t, k, v => if e.1 = k then (k, v) :: t else e :: upsert t k v

/-- Store the pair's `CollisionInfo` (in Python the cached object is mutated
in place; here the cache entry is replaced). -/
def set_pair (p : PyImpact) (id2 id1 : ℤ) (info : CollisionInfo) : PyImpact :=
  { p with object_modes := upsert p.object_modes (id2, id1) info }

/-- Lookup in the material template table (`self.material_data[...]`). -/
def find_mat : List (String × MatTemplate) → String → Option MatTemplate
  | [], _ => none
  | e :: t, k => if e.1 = k then some e.2 else find_mat t k

/-- `PyImpact.__init__`: validates `0 < initial_amp < 1` (`AssertionError`
otherwise) and starts with an empty pair cache. -/
def PyImpact.init (initial_amp : ℝ) (prevent_distortion : Bool)
    (material_data : List (String × MatTemplate)) : Except Unit PyImpact :=
  if 0 < initial_amp ∧ initial_amp < 1 then
    Except.ok ⟨initial_amp, prevent_distortion, [], material_data⟩
  else Except.error ()

/-- `PyImpact.reset`: re-validates `initial_amp`, then clears the pair cache.
Note the source never assigns `self.initial_amp` here. -/
def PyImpact.reset (p : PyImpact) (initial_amp : ℝ) : Except Unit PyImpact :=
  if 0 < initial_amp ∧ initial_amp < 1 then
    Except.ok { p with object_modes := [] }
  else Except.error ()

/-- `PyImpact.is_valid_collision`: a `Collision` with non-zero relative
velocity norm, or any `EnvironmentCollision`; `None` is invalid. -/
def is_valid_collision : Option CollisionEvent → Prop
  | none => False
  | some (CollisionEvent.body rv _) => 0 < norm3 rv
  | some (CollisionEvent.env _) => True

/-- All noise a single `get_sound` call may consume: the two sampling noises
for a fresh pair (lines 267-269, `mat2` first) and the two perturbation draws
of a repeat collision (lines 329-330). -/
structure GetSoundNoise where
  sample2 : SampleNoise
  sample1 : SampleNoise
  perturb1 : List ℝ
  perturb2 : List ℝ

/-- Lines 263-269 of `get_sound`: fetch the pair's `CollisionInfo`, creating
it on first sight — `CollisionInfo(self._get_object_modes(mat2),
self._get_object_modes(mat1), amp=self.initial_amp)`, so `obj1_modes` is
sampled from `mat2` and `obj2_modes` from `mat1`, with default
`init_speed = 1` and `count = 0`. An unknown material label raises `KeyError`;
an exhausted finite noise stream is also `error` (the source would draw
forever). -/
def create_pair (p : PyImpact) (id1 : ℤ) (mat1 : String) (id2 : ℤ) (mat2 : String)
    (nz : GetSoundNoise) : Except Unit (CollisionInfo × PyImpact) :=
  match find_pair p.object_modes (id2, id1) with
  | some info => Except.ok (info, p)
  | none =>
    match find_mat p.material_data mat2, find_mat p.material_data mat1 with
    | some d2, some d1 =>
      match _get_object_modes d2 nz.sample2, _get_object_modes d1 nz.sample1 with
      | some mA, some mB =>
        let info : CollisionInfo := ⟨0, p.initial_amp, 1, mA, mB⟩
        Except.ok (info, set_pair p id2 id1 info)
      | _, _ => Except.error ()
    | _, _ => Except.error ()

/-- Lines 315-333 of `get_sound`, returning `(amp, sound, updated info)`.

First collision (`count == 0`, via `make_impact_audio`, lines 383-411): the
stored `obj2_modes` decay times are shifted by `20*log10(amp2re1)`, the sound
is synthesized from the stored mode sets, `amp` is the stored base amplitude,
and `init_speed` is set to this event's normal speed.  (The loop comparing the
material strings against `AudioMaterial(jmat)` values on lines 398-404 never
matches — a `str` never equals an enum member — and is omitted as a no-op.)

Repeat collision: `amp` is the stored amplitude scaled by
`normal_speed / init_speed`; `modes_1.powers` gets Gaussian noise added, while
line 330 (`modes_2.power = modes_2.powers + ...`) writes the perturbed powers
of `modes_2` to the fresh attribute `power`, leaving `modes_2.powers` itself
unchanged. -/
def impact_branch (info : CollisionInfo) (amp2re1 nspeed mass : ℝ) (nz : GetSoundNoise) :
    ℝ × Option (List ℝ) × CollisionInfo :=
  if info.count = 0 then
    let modes1 := info.obj1_modes
    let modes2 := { info.obj2_modes with
      decay_times := info.obj2_modes.decay_times.map (fun t => t + 20 * Real.logb 10 amp2re1) }
    (info.amp, synth_impact_modes modes1 modes2 mass,
      { info with init_speed := nspeed, obj1_modes := modes1, obj2_modes := modes2 })
  else
    let amp := info.amp * nspeed / info.init_speed
    let modes1 := { info.obj1_modes with
      powers := List.zipWith (fun a b => a + b) info.obj1_modes.powers nz.perturb1 }
    let modes2 := { info.obj2_modes with
      power := some (List.zipWith (fun a b => a + b) info.obj2_modes.powers nz.perturb2) }
    (amp, synth_impact_modes modes1 modes2 mass,
      { info with obj1_modes := modes1, obj2_modes := modes2 })

/-- Lines 342-344: clamp the amplitude to 0.99 when distortion prevention is
on. -/
def clamp_amp (prevent_distortion : Bool) (amp : ℝ) : ℝ :=
  if prevent_distortion = true ∧ 0.99 < amp then 0.99 else amp

/-- Line 346: `sound = amp * sound / np.max(np.abs(sound))`. -/
def normalize_signal (amp : ℝ) (snd : List ℝ) : List ℝ :=
  snd.map (fun v => amp * v / np_max (snd.map (fun u => |u|)))

/-- `get_sound` after the pair entry exists (`s` is the state holding it):
resolve indices and masses, pick the branch, count the collision only when a
sound comes back, clamp, normalize and encode.  `rigidbodies.get_mass(None)`
— reached by an `EnvironmentCollision` whose `id2` is missing from the
snapshot, since the `obj_col and ...` guard of line 308 does not cover it —
raises `TypeError`, modelled by `Except.error`. -/
def get_sound_core (s : PyImpact) (collision : CollisionEvent) (bodies : List Rigidbody)
    (id1 id2 : ℤ) (amp2re1 : ℝ) (nz : GetSoundNoise) (info : CollisionInfo) :
    Except Unit (Option Base64Sound × PyImpact) :=
  if is_body collision = true ∧ (last_index bodies id1 = none ∨ last_index bodies id2 = none) then
    Except.ok (none, s)
  else
    match last_index bodies id2 with
    | none => Except.error ()
    | some j2 =>
      let m1 := if is_body collision = true
        then (bodies.getD ((last_index bodies id1).getD 0) rbDefault).mass
        else 1000
      let mass := min m1 (bodies.getD j2 rbDefault).mass
      match impact_branch info amp2re1 (normal_speed collision bodies id2) mass nz with
      | (_, none, info1) => Except.ok (none, set_pair s id2 id1 info1)
      | (amp, some snd, info1) =>
        Except.ok
          (some (Base64Sound.ofSignal (normalize_signal (clamp_amp s.prevent_distortion amp) snd)),
           set_pair s id2 id1 { info1 with count := info1.count + 1 })

/-- `PyImpact.get_sound`. -/
def get_sound (p : PyImpact) (collision : CollisionEvent) (bodies : List Rigidbody)
    (id1 : ℤ) (mat1 : String) (id2 : ℤ) (mat2 : String) (amp2re1 : ℝ) (nz : GetSoundNoise) :
    Except Unit (Option Base64Sound × PyImpact) :=
  match create_pair p id1 mat1 id2 mat2 nz with
  | Except.error e => Except.error e
  | Except.ok (info, s) => get_sound_core s collision bodies id1 id2 amp2re1 nz info

/-- The command dictionary returned by `get_impact_sound_command`. -/
inductive AudioCommand where
  | play (play_audio_data : Bool) (id : ℤ) (num_frames : ℕ) (num_channels : ℕ)
      (frame_rate : ℕ) (wav_bytes : List ℕ) (y_pos_offset : ℝ)
  | do_nothing

/-- `PyImpact.get_impact_sound_command`: synthesize with `id1 := other_id`,
`id2 := target_id`, `amp2re1 := other_amp / target_amp`; on success wrap the
sound in a play command with `num_frames` set to `impact_audio.length` (the
byte count of the PCM buffer), one channel, 44100 Hz, else `do_nothing`. -/
def get_impact_sound_command (p : PyImpact) (collision : CollisionEvent)
    (bodies : List Rigidbody) (target_id : ℤ) (target_mat : String) (target_amp : ℝ)
    (other_id : ℤ) (other_mat : String) (other_amp : ℝ) (play_audio_data : Bool)
    (nz : GetSoundNoise) : Except Unit (AudioCommand × PyImpact) :=
  match get_sound p collision bodies other_id other_mat target_id target_mat
      (other_amp / target_amp) nz with
  | Except.error e => Except.error e
  | Except.ok (some snd, s1) =>
    Except.ok (AudioCommand.play play_audio_data target_id snd.length 1 44100
      snd.wav_bytes (1 / 10), s1)
  | Except.ok (none, s1) => Except.ok (AudioCommand.do_nothing, s1)

open Classical in
/-- Modelled from the spec: the public `synthesize` operation first validates
the collision with `is_valid_collision` and yields no sound when it is
invalid, otherwise synthesizes with `get_sound`.  The validating caller is
not among the source files (it lives in the controllers that use `PyImpact`);
only `is_valid_collision` and `get_sound` themselves are in the source. -/
def synthesize (p : PyImpact) (collision : Option CollisionEvent) (bodies : List Rigidbody)
    (id1 : ℤ) (mat1 : String) (id2 : ℤ) (mat2 : String) (amp2re1 : ℝ) (nz : GetSoundNoise) :
    Except Unit (Option Base64Sound × PyImpact) :=
  if is_valid_collision collision then
    match collision with
    | some c => get_sound p c bodies id1 mat1 id2 mat2 amp2re1 nz
    | none => Except.ok (none, p)
  else Except.ok (none, p)

/-! ## Infrastructure lemmas -/

theorem find_pair_upsert (l : List ((ℤ × ℤ) × CollisionInfo)) (k : ℤ × ℤ) (v : CollisionInfo) :
    find_pair (upsert l k v) k = some v := by
  induction l with
  | nil => simp [upsert, find_pair]
  | cons e t ih =>
    by_cases h : e.1 = k
    · simp [upsert, find_pair, h]
    · simp [upsert, find_pair, h, ih]

theorem length_mode_add (a b : List ℝ) :
    (mode_add a b).length = max a.length b.length := by
  unfold mode_add
  split
  · simp [List.length_zipWith]; omega
  · simp [List.length_zipWith]; omega

theorem length_int16_le_bytes (n : ℤ) : (int16_le_bytes n).length = 2 := rfl

theorem length_pcm16_bytes (snd : List ℝ) : (pcm16_bytes snd).length = 2 * snd.length := by
  induction snd with
  | nil => rfl
  | cons v t ih =>
    simp only [pcm16_bytes, List.flatMap_cons] at *
    simp [ih, length_int16_le_bytes]
    omega

theorem length_ofSignal (snd : List ℝ) :
    (Base64Sound.ofSignal snd).length = 2 * snd.length := by
  simp [Base64Sound.ofSignal, length_pcm16_bytes]

theorem length_normalize_signal (amp : ℝ) (snd : List ℝ) :
    (normalize_signal amp snd).length = snd.length := by
  simp [normalize_signal]

theorem length_convolve (a b : List ℝ) (ha : a.length ≠ 0) (hb : b.length ≠ 0) :
    (convolve a b).length = a.length + b.length - 1 := by
  unfold convolve
  rw [if_neg (by simp [ha, hb])]
  simp

theorem length_linspace (a b : ℝ) (n : ℕ) : (linspace a b n).length = n := by
  unfold linspace
  split
  · simp_all
  · rw [List.length_map, List.length_range]

theorem accept_first_le (floor : ℝ) (l : List ℝ) (x : ℝ)
    (h : accept_first floor l = some x) : floor ≤ x := by
  induction l with
  | nil => simp [accept_first] at h
  | cons d ds ih =>
    unfold accept_first at h
    split at h
    · cases h; assumption
    · exact ih h

theorem np_max_nil : np_max [] = 0 := rfl

theorem np_max_cons (x : ℝ) (l : List ℝ) (hl : l ≠ []) :
    np_max (x :: l) = max x (np_max l) := by
  cases l with
  | nil => simp at hl
  | cons y t => rfl

theorem np_max_map_scale (c : ℝ) (hc : 0 ≤ c) (l : List ℝ) (hl : l ≠ []) :
    np_max (l.map (fun v => c * v)) = c * np_max l := by
  induction l with
  | nil => simp at hl
  | cons x t ih =>
    cases t with
    | nil => simp [np_max]
    | cons y u =>
      rw [List.map_cons, np_max_cons x (y :: u) (by simp),
        np_max_cons (c * x) ((y :: u).map (fun v => c * v)) (by simp),
        ih (by simp), mul_max_of_nonneg _ _ hc]

theorem getD_replicate {α : Type} (n i : ℕ) (a d : α) (h : i < n) :
    (List.replicate n a).getD i d = a := by
  induction n generalizing i with
  | zero => omega
  | succ k ih =>
    cases i with
    | zero => rfl
    | succ j => simpa [List.replicate] using ih j (by omega)

theorem sample_mode_spec (data : MatTemplate) (nz : SampleNoise) (j : ℕ) (r : ℝ × ℝ × ℝ)
    (h : sample_mode data nz j = some r) : 20 ≤ r.1 ∧ 1 ≤ r.2.2 := by
  unfold sample_mode at h
  cases hf : accept_first 20 ((nz.freq_draws.getD j []).map
      (fun d => data.cf.getD j 0 + d)) with
  | none => rw [hf] at h; simp at h
  | some jf =>
    cases ht : accept_first 0.001 ((nz.decay_draws.getD j []).map
        (fun d => data.rt.getD j 0 + d)) with
    | none => rw [hf, ht] at h; simp at h
    | some jt =>
      rw [hf, ht] at h
      simp only [Option.some.injEq] at h
      have h1 := accept_first_le _ _ _ hf
      have h2 := accept_first_le _ _ _ ht
      subst h
      refine ⟨h1, ?_⟩
      norm_num at h2 ⊢
      linarith

theorem sample_rows_length (data : MatTemplate) (nz : SampleNoise) (js : List ℕ)
    (rows : List (ℝ × ℝ × ℝ)) (h : sample_rows data nz js = some rows) :
    rows.length = js.length := by
  induction js generalizing rows with
  | nil =>
    simp only [sample_rows, Option.some.injEq] at h
    rw [← h]
    rfl
  | cons j t ih =>
    unfold sample_rows at h
    cases hm : sample_mode data nz j with
    | none => rw [hm] at h; simp at h
    | some r =>
      cases hr : sample_rows data nz t with
      | none => rw [hm, hr] at h; simp at h
      | some rs =>
        rw [hm, hr] at h
        simp only [Option.some.injEq] at h
        subst h
        simp [ih rs hr]

theorem sample_rows_mem (data : MatTemplate) (nz : SampleNoise) (js : List ℕ)
    (rows : List (ℝ × ℝ × ℝ)) (h : sample_rows data nz js = some rows)
    (r : ℝ × ℝ × ℝ) (hr : r ∈ rows) : ∃ j, sample_mode data nz j = some r := by
  induction js generalizing rows with
  | nil =>
    simp only [sample_rows, Option.some.injEq] at h
    rw [← h] at hr
    simp at hr
  | cons j t ih =>
    unfold sample_rows at h
    cases hm : sample_mode data nz j with
    | none => rw [hm] at h; simp at h
    | some r0 =>
      cases hrs : sample_rows data nz t with
      | none => rw [hm, hrs] at h; simp at h
      | some rs =>
        rw [hm, hrs] at h
        simp only [Option.some.injEq] at h
        subst h
        rcases List.mem_cons.mp hr with h0 | h0
        · exact ⟨j, by rw [hm, h0]⟩
        · exact ih rs hrs h0

/-! ## Claim C7: sampled ModeSets -/

/-- **C7**: every `Modes` sampled by `_get_object_modes` has all three
sequences of length exactly 10, every frequency at least 20 Hz, and every
decay time (stored in milliseconds, drawn in seconds with floor 0.001 s) at
least 1 ms. -/
theorem c7_sampled_modesets (data : MatTemplate) (nz : SampleNoise) (m : Modes)
    (h : _get_object_modes data nz = some m) :
    m.frequencies.length = 10 ∧ m.powers.length = 10 ∧ m.decay_times.length = 10 ∧
      (∀ f ∈ m.frequencies, 20 ≤ f) ∧ (∀ t ∈ m.decay_times, 1 ≤ t) := by
  unfold _get_object_modes at h
  cases hr : sample_rows data nz (List.range 10) with
  | none => rw [hr] at h; simp at h
  | some rows =>
    rw [hr] at h
    simp only [Option.some.injEq] at h
    have hlen : rows.length = 10 := by
      simpa using sample_rows_length data nz (List.range 10) rows hr
    subst h
    refine ⟨by simp [hlen], by simp [hlen], by simp [hlen], ?_, ?_⟩
    · intro f hf
      rcases List.mem_map.mp hf with ⟨r, hrm, hre⟩
      rcases sample_rows_mem data nz (List.range 10) rows hr r hrm with ⟨j, hj⟩
      have := (sample_mode_spec data nz j r hj).1
      rw [← hre]; exact this
    · intro t ht
      rcases List.mem_map.mp ht with ⟨r, hrm, hre⟩
      rcases sample_rows_mem data nz (List.range 10) rows hr r hrm with ⟨j, hj⟩
      have := (sample_mode_spec data nz j r hj).2
      rw [← hre]; exact this

/-- Concrete sampling scenario for the C7 witness: a flat template
(100 Hz, 0 dB, 1 s per mode) and zero noise draws. -/
def dataW : MatTemplate := ⟨List.replicate 10 100, List.replicate 10 0, List.replicate 10 1⟩

def nzSW : SampleNoise := ⟨List.replicate 10 [0], List.replicate 10 0, List.replicate 10 [0]⟩

def modesW : Modes :=
  ⟨List.replicate 10 100, List.replicate 10 0, List.replicate 10 1000, none⟩

theorem sample_mode_W (j : ℕ) (hj : j < 10) :
    sample_mode dataW nzSW j = some (100, 0, 1000) := by
  unfold sample_mode dataW nzSW
  rw [getD_replicate 10 j (100 : ℝ) 0 hj, getD_replicate 10 j ([0] : List ℝ) [] hj,
    getD_replicate 10 j (1 : ℝ) 0 hj, getD_replicate 10 j (0 : ℝ) 0 hj]
  norm_num [accept_first]

theorem sample_rows_W (js : List ℕ) (hjs : ∀ j ∈ js, j < 10) :
    sample_rows dataW nzSW js =
      some (js.map (fun _ => ((100 : ℝ), (0 : ℝ), (1000 : ℝ)))) := by
  induction js with
  | nil => rfl
  | cons j t ih =>
    unfold sample_rows
    rw [sample_mode_W j (hjs j (by simp)), ih (fun x hx => hjs x (by simp [hx]))]
    simp

theorem get_object_modes_W : _get_object_modes dataW nzSW = some modesW := by
  unfold _get_object_modes
  rw [sample_rows_W (List.range 10) (by intro j hj; simpa using hj)]
  simp [modesW, List.map_map, Function.comp_def, List.map_const']

/-- Witness for C7 at a concrete template and noise input. -/
theorem c7_witness :
    modesW.frequencies.length = 10 ∧ modesW.powers.length = 10 ∧
      modesW.decay_times.length = 10 ∧ (∀ f ∈ modesW.frequencies, 20 ≤ f) ∧
      (∀ t ∈ modesW.decay_times, 1 ≤ t) :=
  c7_sampled_modesets dataW nzSW modesW get_object_modes_W

/-! ## Claim C5: normalization and the distortion ceiling -/

/-- **C5**: the peak absolute value of the final signal produced by the
normalization of line 346 equals the (possibly clamped) amplitude scale, and
with distortion prevention enabled the clamped amplitude never exceeds 0.99.
The hypotheses state non-degeneracy (`np.max(np.abs(sound)) > 0`) and a
non-negative computed amplitude. -/
theorem c5_peak_amplitude (pd : Bool) (amp : ℝ) (snd : List ℝ) (hamp : 0 ≤ amp)
    (hM : 0 < np_max (snd.map (fun u => |u|))) :
    np_max ((normalize_signal (clamp_amp pd amp) snd).map (fun u => |u|)) =
        clamp_amp pd amp ∧
      (pd = true → clamp_amp pd amp ≤ 0.99) := by
  have hA : 0 ≤ clamp_amp pd amp := by
    unfold clamp_amp; split
    · norm_num
    · exact hamp
  constructor
  · have hsnd : snd ≠ [] := by
      intro h
      rw [h] at hM
      simp [np_max] at hM
    have hMne : np_max (snd.map (fun u => |u|)) ≠ 0 := ne_of_gt hM
    have hpt : (fun v => |clamp_amp pd amp * v / np_max (snd.map (fun u => |u|))|) =
        fun v => clamp_amp pd amp / np_max (snd.map (fun u => |u|)) * |v| := by
      funext v
      rw [mul_div_right_comm, abs_mul, abs_of_nonneg (div_nonneg hA hM.le)]
    calc np_max ((normalize_signal (clamp_amp pd amp) snd).map (fun u => |u|))
        = np_max (snd.map (fun v =>
            |clamp_amp pd amp * v / np_max (snd.map (fun u => |u|))|)) := by
          rw [normalize_signal, List.map_map]; rfl
      _ = np_max ((snd.map (fun u => |u|)).map (fun u =>
            clamp_amp pd amp / np_max (snd.map (fun u => |u|)) * u)) := by
          rw [hpt, List.map_map]; rfl
      _ = clamp_amp pd amp / np_max (snd.map (fun u => |u|)) *
            np_max (snd.map (fun u => |u|)) := by
          exact np_max_map_scale _ (div_nonneg hA hM.le) _ (by simp [hsnd])
      _ = clamp_amp pd amp := div_mul_cancel₀ _ hMne
  · intro hpd
    unfold clamp_amp
    split
    · norm_num
    · rename_i hcond
      rw [not_and] at hcond
      have := hcond hpd
      linarith [not_lt.mp this]

/-- Witness for C5: amplitude 1/2 on the two-sample signal `[1, -2]`, with
distortion prevention on. -/
theorem c5_witness :
    np_max ((normalize_signal (clamp_amp true (1 / 2)) [1, -2]).map (fun u => |u|)) =
        clamp_amp true (1 / 2) ∧
      (true = true → clamp_amp true (1 / 2) ≤ 0.99) :=
  c5_peak_amplitude true (1 / 2) [1, -2] (by norm_num)
    (by norm_num [np_max])

/-! ## Claim C8: contact-pulse duration -/

/-- **C8**: the contact pulse convolved in `synth_impact_modes` lasts
`min(mass * 0.001 s, 0.002 s)`: it never exceeds 2 ms, scales linearly with
mass below the 2 ms crossover at 2 kg, and at 44100 Hz its half-sine sample
count consequently never exceeds 89 samples. -/
theorem c8_contact_pulse_duration (mass : ℝ) :
    contact_duration mass ≤ 0.002 ∧
      (mass ≤ 2 → contact_duration mass = 0.001 * mass) ∧
      (contact_pulse mass).length ≤ 89 := by
  refine ⟨min_le_right _ _, fun h2 => ?_, ?_⟩
  · unfold contact_duration
    rw [min_eq_left (by linarith)]
  · unfold contact_pulse
    rw [List.length_map, length_linspace]
    have h1 : contact_duration mass * 44100 ≤ 89 := by
      have hd : contact_duration mass ≤ 0.002 := min_le_right _ _
      nlinarith
    have hc : (⌈contact_duration mass * 44100⌉ : ℤ) ≤ 89 :=
      Int.ceil_le.mpr (by exact_mod_cast h1)
    omega

/-! ## A concrete collision scenario

A pair `(id2, id1) = (2, 1)` already cached with `count = 1` (so repeat-branch
behaviour is exercised), one resonant mode per object with onset power −20 dB
and decay time 0.01 ms (so each rendered mode is a single sample), unit
masses, relative velocity `(1,0,0)` with one aligned contact normal. -/

def m1X : Modes := ⟨[100], [-20], [1 / 100], none⟩

def m2X : Modes := ⟨[200], [-20], [1 / 100], none⟩

/-- `m2X` after the repeat-branch assignment of line 330: `powers` unchanged,
the fresh `power` attribute holding the perturbed values. -/
def m2Xp : Modes := ⟨[200], [-20], [1 / 100], some [-15]⟩

def infoX : CollisionInfo := ⟨1, 1 / 2, 1, m1X, m2X⟩

def pX : PyImpact := ⟨1 / 2, true, [((2, 1), infoX)], []⟩

def vX : Vec3 := ⟨1, 0, 0⟩

def collX : CollisionEvent := CollisionEvent.body vX [vX]

def bodiesX : List Rigidbody := [⟨1, 1, ⟨0, 0, 0⟩⟩, ⟨2, 1, ⟨0, 0, 0⟩⟩]

/-- Perturbation draws: `[0]` for `modes_1`, `[5]` for `modes_2` (the sampling
noises are unused because the pair is already cached). -/
def nzX : GetSoundNoise := ⟨nzSW, nzSW, [0], [5]⟩

/-! ## Claim C2: `reset` versus fresh construction -/

/-- **C2** (code bug): `reset(0.25)` on a synthesizer constructed with
`initial_amp = 0.5` clears the pair cache but leaves `initial_amp` at 0.5 —
the parameter is validated and then dropped — whereas fresh construction with
0.25 yields `initial_amp = 0.25`. So `reset(initial_amp)` is not equivalent
to fresh construction with that amplitude. -/
theorem c2_reset_drops_new_initial_amp :
    PyImpact.reset pX (1 / 4) = Except.ok ⟨1 / 2, true, [], []⟩ ∧
      PyImpact.init (1 / 4) true [] = Except.ok ⟨1 / 4, true, [], []⟩ ∧
      ((1 / 2 : ℝ) = 1 / 4 → False) := by
  refine ⟨?_, ?_, by norm_num⟩
  · unfold PyImpact.reset
    rw [if_pos (by norm_num)]
    rfl
  · unfold PyImpact.init
    rw [if_pos (by norm_num)]

/-! ## Evaluation of the concrete scenario -/

theorem ceil_toNat_eq (r : ℝ) (n : ℕ) (h0 : (n : ℝ) - 1 < r) (h1 : r ≤ n) :
    (⌈r⌉).toNat = n := by
  have hc : ⌈r⌉ = (n : ℤ) := by
    rw [Int.ceil_eq_iff]
    constructor
    · push_cast
      linarith
    · push_cast
      linarith
  omega

theorem sum_modes_single (m : Modes) (fs : ℕ) (h : m.frequencies.length = 1) :
    Modes.sum_modes m fs = mode_sig m fs 0 := by
  unfold Modes.sum_modes
  rw [h]
  rfl

theorem length_mode_sig (m : Modes) (fs : ℕ) (i : ℕ) :
    (mode_sig m fs i).length =
      (⌈m.decay_times.getD i 0 * (80 + m.powers.getD i 0) / 60 / 1000 * (fs : ℝ)⌉).toNat := by
  simp [mode_sig]

theorem length_sum_modes_m1X : (Modes.sum_modes m1X 44100).length = 1 := by
  rw [sum_modes_single m1X 44100 (by simp [m1X]), length_mode_sig]
  apply ceil_toNat_eq <;> norm_num [m1X]

theorem length_sum_modes_m2Xp : (Modes.sum_modes m2Xp 44100).length = 1 := by
  rw [sum_modes_single m2Xp 44100 (by simp [m2Xp]), length_mode_sig]
  apply ceil_toNat_eq <;> norm_num [m2Xp]

theorem length_contact_pulse_one : (contact_pulse 1).length = 45 := by
  unfold contact_pulse
  rw [List.length_map, length_linspace]
  have hd : contact_duration 1 = 0.001 := by
    unfold contact_duration
    rw [min_eq_left (by norm_num)]
    norm_num
  rw [hd]
  apply ceil_toNat_eq <;> norm_num

theorem length_hX :
    (mode_add (Modes.sum_modes m1X 44100) (Modes.sum_modes m2Xp 44100)).length = 1 := by
  rw [length_mode_add, length_sum_modes_m1X, length_sum_modes_m2Xp]
  rfl

/-- The signal the repeat branch of the concrete scenario synthesizes. -/
def sigX : List ℝ :=
  (convolve (mode_add (Modes.sum_modes m1X 44100) (Modes.sum_modes m2Xp 44100))
      (contact_pulse 1)).map
    (fun v => v /
      |np_max (convolve (mode_add (Modes.sum_modes m1X 44100) (Modes.sum_modes m2Xp 44100))
        (contact_pulse 1))|)

theorem length_sigX : sigX.length = 45 := by
  unfold sigX
  rw [List.length_map,
    length_convolve _ _ (by rw [length_hX]; norm_num)
      (by rw [length_contact_pulse_one]; norm_num),
    length_hX, length_contact_pulse_one]

theorem synth_X : synth_impact_modes m1X m2Xp 1 = some sigX := by
  have hne : ¬ (mode_add (Modes.sum_modes m1X 44100) (Modes.sum_modes m2Xp 44100)).length = 0 := by
    rw [length_hX]
    norm_num
  simp only [synth_impact_modes, sigX, if_neg hne]

/-! ### Case lemmas for `get_sound_core` -/

theorem get_sound_core_unresolved (s : PyImpact) (rv : Vec3) (cts : List Vec3)
    (bodies : List Rigidbody) (id1 id2 : ℤ) (a : ℝ) (nz : GetSoundNoise) (info : CollisionInfo)
    (h : last_index bodies id1 = none ∨ last_index bodies id2 = none) :
    get_sound_core s (CollisionEvent.body rv cts) bodies id1 id2 a nz info =
      Except.ok (none, s) := by
  unfold get_sound_core
  rw [if_pos ⟨rfl, h⟩]

theorem get_sound_core_resolved (s : PyImpact) (rv : Vec3) (cts : List Vec3)
    (bodies : List Rigidbody) (id1 id2 : ℤ) (a : ℝ) (nz : GetSoundNoise) (info : CollisionInfo)
    (j1 j2 : ℕ) (h1 : last_index bodies id1 = some j1) (h2 : last_index bodies id2 = some j2) :
    get_sound_core s (CollisionEvent.body rv cts) bodies id1 id2 a nz info =
      match impact_branch info a (normal_speed (CollisionEvent.body rv cts) bodies id2)
          (min ((bodies.getD j1 rbDefault).mass) ((bodies.getD j2 rbDefault).mass)) nz with
      | (_, none, info1) => Except.ok (none, set_pair s id2 id1 info1)
      | (amp, some snd, info1) =>
        Except.ok
          (some (Base64Sound.ofSignal (normalize_signal (clamp_amp s.prevent_distortion amp) snd)),
           set_pair s id2 id1 { info1 with count := info1.count + 1 }) := by
  unfold get_sound_core
  rw [h1, h2, if_neg (by simp)]
  rfl

theorem get_sound_core_env_missing (s : PyImpact) (cts : List Vec3)
    (bodies : List Rigidbody) (id1 id2 : ℤ) (a : ℝ) (nz : GetSoundNoise) (info : CollisionInfo)
    (h2 : last_index bodies id2 = none) :
    get_sound_core s (CollisionEvent.env cts) bodies id1 id2 a nz info = Except.error () := by
  unfold get_sound_core
  rw [if_neg (by simp [is_body]), h2]

theorem get_sound_core_env_resolved (s : PyImpact) (cts : List Vec3)
    (bodies : List Rigidbody) (id1 id2 : ℤ) (a : ℝ) (nz : GetSoundNoise) (info : CollisionInfo)
    (j2 : ℕ) (h2 : last_index bodies id2 = some j2) :
    get_sound_core s (CollisionEvent.env cts) bodies id1 id2 a nz info =
      match impact_branch info a (normal_speed (CollisionEvent.env cts) bodies id2)
          (min 1000 ((bodies.getD j2 rbDefault).mass)) nz with
      | (_, none, info1) => Except.ok (none, set_pair s id2 id1 info1)
      | (amp, some snd, info1) =>
        Except.ok
          (some (Base64Sound.ofSignal (normalize_signal (clamp_amp s.prevent_distortion amp) snd)),
           set_pair s id2 id1 { info1 with count := info1.count + 1 }) := by
  unfold get_sound_core
  rw [if_neg (by simp [is_body]), h2]
  rfl

theorem get_sound_cached (p : PyImpact) (collision : CollisionEvent) (bodies : List Rigidbody)
    (id1 : ℤ) (mat1 : String) (id2 : ℤ) (mat2 : String) (a : ℝ) (nz : GetSoundNoise)
    (info : CollisionInfo) (h : find_pair p.object_modes (id2, id1) = some info) :
    get_sound p collision bodies id1 mat1 id2 mat2 a nz =
      get_sound_core p collision bodies id1 id2 a nz info := by
  unfold get_sound create_pair
  rw [h]

theorem find_pair_X : find_pair pX.object_modes (2, 1) = some infoX := by
  simp [pX, find_pair]

theorem create_pair_X : create_pair pX 1 "wood" 2 "wood" nzX = Except.ok (infoX, pX) := by
  unfold create_pair
  rw [find_pair_X]

theorem last_index_X1 : last_index bodiesX 1 = some 0 := by
  norm_num [last_index, last_index_aux, bodiesX]

theorem last_index_X2 : last_index bodiesX 2 = some 1 := by
  norm_num [last_index, last_index_aux, bodiesX]

theorem branch_X :
    impact_branch infoX 1 (normal_speed collX bodiesX 2) 1 nzX =
      (1 / 2 * normal_speed collX bodiesX 2 / 1, some sigX,
        ⟨1, 1 / 2, 1, m1X, m2Xp⟩) := by
  unfold impact_branch
  rw [if_neg (by simp [infoX])]
  have hM1 : { infoX.obj1_modes with
      powers := List.zipWith (fun a b => a + b) infoX.obj1_modes.powers nzX.perturb1 } = m1X := by
    simp only [infoX, m1X, nzX, List.zipWith]
    norm_num
  have hM2 : { infoX.obj2_modes with
      power := some (List.zipWith (fun a b => a + b) infoX.obj2_modes.powers nzX.perturb2) } =
        m2Xp := by
    simp only [infoX, m2X, m2Xp, nzX, List.zipWith]
    norm_num
  rw [hM1, hM2]
  simp only [synth_X]
  simp [infoX]

theorem get_sound_X :
    get_sound pX collX bodiesX 1 "wood" 2 "wood" 1 nzX =
      Except.ok (some (Base64Sound.ofSignal (normalize_signal
          (clamp_amp true (1 / 2 * normal_speed collX bodiesX 2 / 1)) sigX)),
        set_pair pX 2 1 ⟨2, 1 / 2, 1, m1X, m2Xp⟩) := by
  rw [get_sound_cached pX collX bodiesX 1 "wood" 2 "wood" 1 nzX infoX find_pair_X,
    show collX = CollisionEvent.body vX [vX] from rfl,
    get_sound_core_resolved pX vX [vX] bodiesX 1 2 1 nzX infoX 0 1 last_index_X1 last_index_X2,
    show min ((bodiesX.getD 0 rbDefault).mass) ((bodiesX.getD 1 rbDefault).mass) = 1 by
      norm_num [bodiesX],
    show CollisionEvent.body vX [vX] = collX from rfl, branch_X]
  norm_num [pX]

/-! ### Structure of `impact_branch`, `create_pair` and `get_sound` results -/

theorem impact_branch_count (info : CollisionInfo) (a ns mass : ℝ) (nz : GetSoundNoise) :
    (impact_branch info a ns mass nz).2.2.count = info.count := by
  unfold impact_branch
  split <;> rfl

theorem impact_branch_repeat (info : CollisionInfo) (a ns mass : ℝ) (nz : GetSoundNoise)
    (hc : info.count ≠ 0) :
    impact_branch info a ns mass nz =
      (info.amp * ns / info.init_speed,
       synth_impact_modes
         { info.obj1_modes with
           powers := List.zipWith (fun x y => x + y) info.obj1_modes.powers nz.perturb1 }
         { info.obj2_modes with
           power := some (List.zipWith (fun x y => x + y) info.obj2_modes.powers nz.perturb2) }
         mass,
       { info with
         obj1_modes := { info.obj1_modes with
           powers := List.zipWith (fun x y => x + y) info.obj1_modes.powers nz.perturb1 },
         obj2_modes := { info.obj2_modes with
           power := some (List.zipWith (fun x y => x + y) info.obj2_modes.powers nz.perturb2) } }) := by
  unfold impact_branch
  rw [if_neg hc]

theorem create_pair_spec (p : PyImpact) (id1 : ℤ) (mat1 : String) (id2 : ℤ) (mat2 : String)
    (nz : GetSoundNoise) (info : CollisionInfo) (s : PyImpact)
    (h : create_pair p id1 mat1 id2 mat2 nz = Except.ok (info, s)) :
    (find_pair p.object_modes (id2, id1) = some info ∧ s = p) ∨
      (find_pair p.object_modes (id2, id1) = none ∧ info.count = 0 ∧
        s = set_pair p id2 id1 info) := by
  unfold create_pair at h
  split at h
  · rename_i i0 hf
    simp only [Except.ok.injEq, Prod.mk.injEq] at h
    refine Or.inl ⟨?_, h.2.symm⟩
    rw [hf, h.1]
  · rename_i hf
    refine Or.inr ⟨hf, ?_⟩
    split at h
    · split at h
      · simp only [Except.ok.injEq, Prod.mk.injEq] at h
        constructor
        · rw [← h.1]
        · rw [← h.2, ← h.1]
      · cases h
    · cases h

theorem get_sound_ok_cases (p : PyImpact) (collision : CollisionEvent) (bodies : List Rigidbody)
    (id1 : ℤ) (mat1 : String) (id2 : ℤ) (mat2 : String) (a : ℝ) (nz : GetSoundNoise)
    (r : Option Base64Sound) (s1 : PyImpact)
    (hok : get_sound p collision bodies id1 mat1 id2 mat2 a nz = Except.ok (r, s1)) :
    ∃ info s, create_pair p id1 mat1 id2 mat2 nz = Except.ok (info, s) ∧
      get_sound_core s collision bodies id1 id2 a nz info = Except.ok (r, s1) := by
  unfold get_sound at hok
  cases hc : create_pair p id1 mat1 id2 mat2 nz with
  | error e => rw [hc] at hok; cases hok
  | ok pr =>
    obtain ⟨info, s⟩ := pr
    rw [hc] at hok
    exact ⟨info, s, rfl, hok⟩

/-- All ways `get_sound_core` can return `Except.ok`: the unresolved-id early
return for a body-body collision (state untouched), a degenerate branch sound
(no sound, modes stored, count unchanged), or a successful synthesis (the
normalized encoded sound, count incremented). -/
theorem get_sound_core_cases (s : PyImpact) (collision : CollisionEvent)
    (bodies : List Rigidbody) (id1 id2 : ℤ) (a : ℝ) (nz : GetSoundNoise)
    (info : CollisionInfo) (r : Option Base64Sound) (s1 : PyImpact)
    (hok : get_sound_core s collision bodies id1 id2 a nz info = Except.ok (r, s1)) :
    (r = none ∧ s1 = s) ∨
      (∃ mass amp0 info1,
        impact_branch info a (normal_speed collision bodies id2) mass nz = (amp0, none, info1) ∧
        r = none ∧ s1 = set_pair s id2 id1 info1) ∨
      (∃ mass amp0 snd0 info1,
        impact_branch info a (normal_speed collision bodies id2) mass nz =
          (amp0, some snd0, info1) ∧
        r = some (Base64Sound.ofSignal
          (normalize_signal (clamp_amp s.prevent_distortion amp0) snd0)) ∧
        s1 = set_pair s id2 id1 { info1 with count := info1.count + 1 }) := by
  cases collision with
  | body rv cts =>
    cases hi1 : last_index bodies id1 with
    | none =>
      rw [get_sound_core_unresolved s rv cts bodies id1 id2 a nz info (Or.inl hi1)] at hok
      simp only [Except.ok.injEq, Prod.mk.injEq] at hok
      exact Or.inl ⟨hok.1.symm, hok.2.symm⟩
    | some j1 =>
      cases hi2 : last_index bodies id2 with
      | none =>
        rw [get_sound_core_unresolved s rv cts bodies id1 id2 a nz info (Or.inr hi2)] at hok
        simp only [Except.ok.injEq, Prod.mk.injEq] at hok
        exact Or.inl ⟨hok.1.symm, hok.2.symm⟩
      | some j2 =>
        rw [get_sound_core_resolved s rv cts bodies id1 id2 a nz info j1 j2 hi1 hi2] at hok
        rcases hIB : impact_branch info a (normal_speed (CollisionEvent.body rv cts) bodies id2)
            (min ((bodies.getD j1 rbDefault).mass) ((bodies.getD j2 rbDefault).mass)) nz with
          ⟨amp0, sopt, info1⟩
        rw [hIB] at hok
        cases sopt with
        | none =>
          simp only [Except.ok.injEq, Prod.mk.injEq] at hok
          exact Or.inr (Or.inl ⟨_, amp0, info1, hIB, hok.1.symm, hok.2.symm⟩)
        | some snd0 =>
          simp only [Except.ok.injEq, Prod.mk.injEq] at hok
          exact Or.inr (Or.inr ⟨_, amp0, snd0, info1, hIB, hok.1.symm, hok.2.symm⟩)
  | env cts =>
    cases hi2 : last_index bodies id2 with
    | none =>
      rw [get_sound_core_env_missing s cts bodies id1 id2 a nz info hi2] at hok
      cases hok
    | some j2 =>
      rw [get_sound_core_env_resolved s cts bodies id1 id2 a nz info j2 hi2] at hok
      rcases hIB : impact_branch info a (normal_speed (CollisionEvent.env cts) bodies id2)
          (min 1000 ((bodies.getD j2 rbDefault).mass)) nz with ⟨amp0, sopt, info1⟩
      rw [hIB] at hok
      cases sopt with
      | none =>
        simp only [Except.ok.injEq, Prod.mk.injEq] at hok
        exact Or.inr (Or.inl ⟨_, amp0, info1, hIB, hok.1.symm, hok.2.symm⟩)
      | some snd0 =>
        simp only [Except.ok.injEq, Prod.mk.injEq] at hok
        exact Or.inr (Or.inr ⟨_, amp0, snd0, info1, hIB, hok.1.symm, hok.2.symm⟩)

/-! ## Claim C10: the collision count -/

theorem set_pair_object_modes (s : PyImpact) (id2 id1 : ℤ) (v : CollisionInfo) :
    (set_pair s id2 id1 v).object_modes = upsert s.object_modes (id2, id1) v := rfl

/-- **C10**: a synthesis call that yields "no sound" (unresolved body index
for a body-body collision, or a degenerate branch signal) leaves the affected
pair's collision count unchanged, and a call that returns a sound increments
it by exactly one. (A pair seen for the first time is created with count 0 at
the top of the call, so the "before" count of an unseen pair reads as 0.) -/
theorem c10_count_increment (p : PyImpact) (collision : CollisionEvent)
    (bodies : List Rigidbody) (id1 : ℤ) (mat1 : String) (id2 : ℤ) (mat2 : String)
    (a : ℝ) (nz : GetSoundNoise) (r : Option Base64Sound) (s1 : PyImpact)
    (hok : get_sound p collision bodies id1 mat1 id2 mat2 a nz = Except.ok (r, s1)) :
    (r = none →
      ((find_pair s1.object_modes (id2, id1)).map CollisionInfo.count).getD 0 =
        ((find_pair p.object_modes (id2, id1)).map CollisionInfo.count).getD 0) ∧
      (∀ snd, r = some snd →
        ((find_pair s1.object_modes (id2, id1)).map CollisionInfo.count).getD 0 =
          ((find_pair p.object_modes (id2, id1)).map CollisionInfo.count).getD 0 + 1) := by
  obtain ⟨info, s, hc, hcore⟩ :=
    get_sound_ok_cases p collision bodies id1 mat1 id2 mat2 a nz r s1 hok
  have hcp := create_pair_spec p id1 mat1 id2 mat2 nz info s hc
  have hbefore : ((find_pair p.object_modes (id2, id1)).map CollisionInfo.count).getD 0 =
      info.count := by
    rcases hcp with ⟨hf, _⟩ | ⟨hf, hcnt, _⟩
    · rw [hf]; rfl
    · rw [hf, hcnt]; rfl
  have hs_pair : find_pair s.object_modes (id2, id1) = some info := by
    rcases hcp with ⟨hf, hseq⟩ | ⟨hf, hcnt, hseq⟩
    · rw [hseq]; exact hf
    · rw [hseq, set_pair_object_modes]; exact find_pair_upsert _ _ _
  rcases get_sound_core_cases s collision bodies id1 id2 a nz info r s1 hcore with
    ⟨hr, hs1⟩ | ⟨mass, amp0, info1, hIB, hr, hs1⟩ | ⟨mass, amp0, snd0, info1, hIB, hr, hs1⟩
  · constructor
    · intro _
      rw [hs1, hs_pair, hbefore]
      rfl
    · intro snd hsnd
      rw [hr] at hsnd
      cases hsnd
  · have hcnt1 : info1.count = info.count := by
      have h := impact_branch_count info a (normal_speed collision bodies id2) mass nz
      rw [hIB] at h
      exact h
    constructor
    · intro _
      rw [hs1, set_pair_object_modes, find_pair_upsert, hbefore]
      simpa using hcnt1
    · intro snd hsnd
      rw [hr] at hsnd
      cases hsnd
  · have hcnt1 : info1.count = info.count := by
      have h := impact_branch_count info a (normal_speed collision bodies id2) mass nz
      rw [hIB] at h
      exact h
    constructor
    · intro h0
      rw [hr] at h0
      cases h0
    · intro snd hsnd
      rw [hs1, set_pair_object_modes, find_pair_upsert, hbefore]
      simpa using hcnt1

/-- Witness for C10 at the concrete repeat-collision scenario: the call
returns a sound and the stored count goes from 1 to 2. -/
theorem c10_witness :
    ((some (Base64Sound.ofSignal (normalize_signal
          (clamp_amp true (1 / 2 * normal_speed collX bodiesX 2 / 1)) sigX)) :
        Option Base64Sound) = none →
      ((find_pair (set_pair pX 2 1 ⟨2, 1 / 2, 1, m1X, m2Xp⟩).object_modes
          (2, 1)).map CollisionInfo.count).getD 0 =
        ((find_pair pX.object_modes (2, 1)).map CollisionInfo.count).getD 0) ∧
      (∀ snd, (some (Base64Sound.ofSignal (normalize_signal
            (clamp_amp true (1 / 2 * normal_speed collX bodiesX 2 / 1)) sigX)) :
          Option Base64Sound) = some snd →
        ((find_pair (set_pair pX 2 1 ⟨2, 1 / 2, 1, m1X, m2Xp⟩).object_modes
            (2, 1)).map CollisionInfo.count).getD 0 =
          ((find_pair pX.object_modes (2, 1)).map CollisionInfo.count).getD 0 + 1) :=
  c10_count_increment pX collX bodiesX 1 "wood" 2 "wood" 1 nzX
    (some (Base64Sound.ofSignal (normalize_signal
      (clamp_amp true (1 / 2 * normal_speed collX bodiesX 2 / 1)) sigX)))
    (set_pair pX 2 1 ⟨2, 1 / 2, 1, m1X, m2Xp⟩) get_sound_X

/-! ## Claim C1: perturbation on repeat collisions -/

/-- **C1** (code bug): on a repeat collision (`count ≠ 0`) that returns a
sound, the stored `obj1_modes.powers` do get the Gaussian perturbation added
elementwise, but the stored `obj2_modes.powers` are left exactly unchanged:
line 330 (`modes_2.power = modes_2.powers + np.random.normal(...)`) writes
the perturbed values of the second ModeSet to a fresh, never-read attribute
`power` instead of `powers`. Frequencies and decay times are unchanged for
both. -/
theorem c1_obj2_powers_unperturbed (p : PyImpact) (collision : CollisionEvent)
    (bodies : List Rigidbody) (id1 : ℤ) (mat1 : String) (id2 : ℤ) (mat2 : String)
    (a : ℝ) (nz : GetSoundNoise) (info : CollisionInfo) (snd : Base64Sound) (s1 : PyImpact)
    (hpair : find_pair p.object_modes (id2, id1) = some info)
    (hcount : info.count ≠ 0)
    (hok : get_sound p collision bodies id1 mat1 id2 mat2 a nz = Except.ok (some snd, s1)) :
    (find_pair s1.object_modes (id2, id1)).map (fun i => i.obj2_modes.powers) =
        some info.obj2_modes.powers ∧
      (find_pair s1.object_modes (id2, id1)).map (fun i => i.obj2_modes.frequencies) =
        some info.obj2_modes.frequencies ∧
      (find_pair s1.object_modes (id2, id1)).map (fun i => i.obj2_modes.decay_times) =
        some info.obj2_modes.decay_times ∧
      (find_pair s1.object_modes (id2, id1)).map (fun i => i.obj1_modes.powers) =
        some (List.zipWith (fun x y => x + y) info.obj1_modes.powers nz.perturb1) ∧
      (find_pair s1.object_modes (id2, id1)).map (fun i => i.obj2_modes.power) =
        some (some (List.zipWith (fun x y => x + y) info.obj2_modes.powers nz.perturb2)) := by
  rw [get_sound_cached p collision bodies id1 mat1 id2 mat2 a nz info hpair] at hok
  rcases get_sound_core_cases p collision bodies id1 id2 a nz info (some snd) s1 hok with
    ⟨hr, _⟩ | ⟨mass, amp0, info1, hIB, hr, _⟩ | ⟨mass, amp0, snd0, info1, hIB, hr, hs1⟩
  · cases hr
  · cases hr
  · rw [impact_branch_repeat info a (normal_speed collision bodies id2) mass nz hcount] at hIB
    have hinfo1 : info1 = { info with
        obj1_modes := { info.obj1_modes with
          powers := List.zipWith (fun x y => x + y) info.obj1_modes.powers nz.perturb1 },
        obj2_modes := { info.obj2_modes with
          power := some (List.zipWith (fun x y => x + y) info.obj2_modes.powers nz.perturb2) } } := by
      have h := congrArg (fun t : ℝ × Option (List ℝ) × CollisionInfo => t.2.2) hIB
      simpa using h.symm
    rw [hs1, set_pair_object_modes, find_pair_upsert, hinfo1]
    exact ⟨rfl, rfl, rfl, rfl, rfl⟩

/-- Witness for C1 at the concrete repeat collision: the second ModeSet's
stored powers stay `[-20]` even though its perturbation draw was `[5]`. -/
theorem c1_witness :
    (find_pair (set_pair pX 2 1 ⟨2, 1 / 2, 1, m1X, m2Xp⟩).object_modes (2, 1)).map
        (fun i => i.obj2_modes.powers) = some infoX.obj2_modes.powers ∧
      (find_pair (set_pair pX 2 1 ⟨2, 1 / 2, 1, m1X, m2Xp⟩).object_modes (2, 1)).map
        (fun i => i.obj2_modes.frequencies) = some infoX.obj2_modes.frequencies ∧
      (find_pair (set_pair pX 2 1 ⟨2, 1 / 2, 1, m1X, m2Xp⟩).object_modes (2, 1)).map
        (fun i => i.obj2_modes.decay_times) = some infoX.obj2_modes.decay_times ∧
      (find_pair (set_pair pX 2 1 ⟨2, 1 / 2, 1, m1X, m2Xp⟩).object_modes (2, 1)).map
        (fun i => i.obj1_modes.powers) =
        some (List.zipWith (fun x y => x + y) infoX.obj1_modes.powers nzX.perturb1) ∧
      (find_pair (set_pair pX 2 1 ⟨2, 1 / 2, 1, m1X, m2Xp⟩).object_modes (2, 1)).map
        (fun i => i.obj2_modes.power) =
        some (some (List.zipWith (fun x y => x + y) infoX.obj2_modes.powers nzX.perturb2)) :=
  c1_obj2_powers_unperturbed pX collX bodiesX 1 "wood" 2 "wood" 1 nzX infoX
    (Base64Sound.ofSignal (normalize_signal
      (clamp_amp true (1 / 2 * normal_speed collX bodiesX 2 / 1)) sigX))
    (set_pair pX 2 1 ⟨2, 1 / 2, 1, m1X, m2Xp⟩) find_pair_X (by norm_num [infoX]) get_sound_X

/-! ## Claim C3: zero-velocity body-body collisions and validity -/

theorem norm3_zero_iff (rv : Vec3) :
    norm3 rv = 0 ↔ rv.x = 0 ∧ rv.y = 0 ∧ rv.z = 0 := by
  unfold norm3
  rw [Real.sqrt_eq_zero (by positivity)]
  constructor
  · intro h
    refine ⟨?_, ?_, ?_⟩ <;>
      nlinarith [sq_nonneg rv.x, sq_nonneg rv.y, sq_nonneg rv.z]
  · rintro ⟨hx, hy, hz⟩
    rw [hx, hy, hz]
    ring

/-- **C3**: a body-body collision with zero relative-velocity magnitude makes
`synthesize` return the "no sound" outcome with the state untouched, and
validity is decided exactly as: a body-body collision is valid iff its
relative velocity is non-zero, while an environment collision is always
eligible. -/
theorem c3_zero_velocity_validity (p : PyImpact) (rv : Vec3) (cts cts2 : List Vec3)
    (bodies : List Rigidbody) (id1 : ℤ) (mat1 : String) (id2 : ℤ) (mat2 : String)
    (a : ℝ) (nz : GetSoundNoise) :
    (norm3 rv = 0 →
      synthesize p (some (CollisionEvent.body rv cts)) bodies id1 mat1 id2 mat2 a nz =
        Except.ok (none, p)) ∧
      (is_valid_collision (some (CollisionEvent.body rv cts)) ↔
        ¬(rv.x = 0 ∧ rv.y = 0 ∧ rv.z = 0)) ∧
      is_valid_collision (some (CollisionEvent.env cts2)) := by
  refine ⟨?_, ?_, ?_⟩
  · intro h0
    unfold synthesize
    rw [if_neg]
    show ¬ 0 < norm3 rv
    rw [h0]
    norm_num
  · show 0 < norm3 rv ↔ _
    rw [← norm3_zero_iff]
    constructor
    · intro h he
      rw [he] at h
      norm_num at h
    · intro h
      rcases lt_or_eq_of_le (Real.sqrt_nonneg (rv.x ^ 2 + rv.y ^ 2 + rv.z ^ 2)) with hlt | heq
      · exact hlt
      · exact absurd heq.symm h
  · trivial

/-! ## Claim C4: "no sound" outcomes versus exceptions -/

/-- A rigidbody snapshot with only body 1, so that id 2 cannot be resolved. -/
def bodiesY : List Rigidbody := [⟨1, 1, ⟨0, 0, 0⟩⟩]

/-- Counterexample to C4 as stated: for an `EnvironmentCollision` whose
target id (2) is missing from the rigidbody snapshot, `get_sound` does not
return "no sound" — it raises (`rigidbodies.get_mass(None)` throws a
`TypeError`, since the line-308 guard only covers body-body collisions). -/
theorem c4_counterexample :
    get_sound pX (CollisionEvent.env [vX]) bodiesY 1 "wood" 2 "wood" 1 nzX =
      Except.error () := by
  rw [get_sound_cached pX (CollisionEvent.env [vX]) bodiesY 1 "wood" 2 "wood" 1 nzX infoX
    find_pair_X]
  exact get_sound_core_env_missing pX [vX] bodiesY 1 2 1 nzX infoX
    (by norm_num [last_index, last_index_aux, bodiesY])

/-- **C4** (amended): for a *body-body* collision on an already-seen pair,
`get_sound` never raises; an unresolved body id yields "no sound" with the
state unchanged; a degenerate branch signal also yields "no sound" (with the
mutated modes stored but no count change); and an invalid collision is
screened off as "no sound" by the validity check. For environment collisions
the unresolved-id guard does not apply (see the counterexample), which is the
one correction to the claim. The mass-positivity hypothesis marks the
physical domain on which the embedding's total `linspace`/`np_max` agree with
numpy (a non-positive mass would make `np.linspace` or `np.max` itself raise
in the source). -/
theorem c4_no_sound_outcomes (p : PyImpact) (rv : Vec3) (cts : List Vec3)
    (bodies : List Rigidbody) (id1 : ℤ) (mat1 : String) (id2 : ℤ) (mat2 : String)
    (a : ℝ) (nz : GetSoundNoise) (info : CollisionInfo)
    (_hmass : ∀ b ∈ bodies, 0 < b.mass)
    (hpair : find_pair p.object_modes (id2, id1) = some info) :
    (norm3 rv = 0 →
      synthesize p (some (CollisionEvent.body rv cts)) bodies id1 mat1 id2 mat2 a nz =
        Except.ok (none, p)) ∧
      (∃ out, get_sound p (CollisionEvent.body rv cts) bodies id1 mat1 id2 mat2 a nz =
        Except.ok out) ∧
      ((last_index bodies id1 = none ∨ last_index bodies id2 = none) →
        get_sound p (CollisionEvent.body rv cts) bodies id1 mat1 id2 mat2 a nz =
          Except.ok (none, p)) ∧
      (∀ j1 j2, last_index bodies id1 = some j1 → last_index bodies id2 = some j2 →
        ∀ amp0 info1,
          impact_branch info a (normal_speed (CollisionEvent.body rv cts) bodies id2)
              (min ((bodies.getD j1 rbDefault).mass) ((bodies.getD j2 rbDefault).mass)) nz =
            (amp0, none, info1) →
          get_sound p (CollisionEvent.body rv cts) bodies id1 mat1 id2 mat2 a nz =
            Except.ok (none, set_pair p id2 id1 info1)) := by
  have hcached := get_sound_cached p (CollisionEvent.body rv cts) bodies id1 mat1 id2 mat2
    a nz info hpair
  refine ⟨?_, ?_, ?_, ?_⟩
  · intro h0
    unfold synthesize
    rw [if_neg]
    show ¬ 0 < norm3 rv
    rw [h0]
    norm_num
  · rw [hcached]
    cases hi1 : last_index bodies id1 with
    | none =>
      exact ⟨(none, p), get_sound_core_unresolved p rv cts bodies id1 id2 a nz info
        (Or.inl hi1)⟩
    | some j1 =>
      cases hi2 : last_index bodies id2 with
      | none =>
        exact ⟨(none, p), get_sound_core_unresolved p rv cts bodies id1 id2 a nz info
          (Or.inr hi2)⟩
      | some j2 =>
        rw [get_sound_core_resolved p rv cts bodies id1 id2 a nz info j1 j2 hi1 hi2]
        rcases impact_branch info a (normal_speed (CollisionEvent.body rv cts) bodies id2)
            (min ((bodies.getD j1 rbDefault).mass) ((bodies.getD j2 rbDefault).mass)) nz with
          ⟨amp0, sopt, info1⟩
        cases sopt with
        | none => exact ⟨_, rfl⟩
        | some snd0 => exact ⟨_, rfl⟩
  · intro h
    rw [hcached]
    exact get_sound_core_unresolved p rv cts bodies id1 id2 a nz info h
  · intro j1 j2 hi1 hi2 amp0 info1 hIB
    rw [hcached, get_sound_core_resolved p rv cts bodies id1 id2 a nz info j1 j2 hi1 hi2, hIB]

/-- Witness for C4 at a concrete input: the cached pair `(2, 1)` of `pX` with
a snapshot that cannot resolve id 2. -/
theorem c4_witness :
    (norm3 vX = 0 →
      synthesize pX (some (CollisionEvent.body vX [vX])) bodiesY 1 "wood" 2 "wood" 1 nzX =
        Except.ok (none, pX)) ∧
      (∃ out, get_sound pX (CollisionEvent.body vX [vX]) bodiesY 1 "wood" 2 "wood" 1 nzX =
        Except.ok out) ∧
      ((last_index bodiesY 1 = none ∨ last_index bodiesY 2 = none) →
        get_sound pX (CollisionEvent.body vX [vX]) bodiesY 1 "wood" 2 "wood" 1 nzX =
          Except.ok (none, pX)) ∧
      (∀ j1 j2, last_index bodiesY 1 = some j1 → last_index bodiesY 2 = some j2 →
        ∀ amp0 info1,
          impact_branch infoX 1 (normal_speed (CollisionEvent.body vX [vX]) bodiesY 2)
              (min ((bodiesY.getD j1 rbDefault).mass) ((bodiesY.getD j2 rbDefault).mass)) nzX =
            (amp0, none, info1) →
          get_sound pX (CollisionEvent.body vX [vX]) bodiesY 1 "wood" 2 "wood" 1 nzX =
            Except.ok (none, set_pair pX 2 1 info1)) :=
  c4_no_sound_outcomes pX vX [vX] bodiesY 1 "wood" 2 "wood" 1 nzX infoX
    (by intro b hb; norm_num [bodiesY] at hb; rw [hb]; norm_num) find_pair_X

/-! ## Claim C6: amplitude continuity on repeat collisions -/

/-- **C6**: on a repeat collision (`count ≠ 0`) of a body-body pair, the
amplitude computed by the branch is exactly the pair's stored base amplitude
times `normal_speed / init_speed` (the current normal-impact speed over the
reference speed recorded at the first collision), and the returned sound is
that amplitude — after the distortion clamp — normalizing the branch's
synthesized signal. -/
theorem c6_repeat_amplitude (p : PyImpact) (rv : Vec3) (cts : List Vec3)
    (bodies : List Rigidbody) (id1 : ℤ) (mat1 : String) (id2 : ℤ) (mat2 : String)
    (a : ℝ) (nz : GetSoundNoise) (info : CollisionInfo) (j1 j2 : ℕ) (sig : List ℝ)
    (snd : Base64Sound) (s1 : PyImpact)
    (hpair : find_pair p.object_modes (id2, id1) = some info)
    (hcount : info.count ≠ 0)
    (hi1 : last_index bodies id1 = some j1) (hi2 : last_index bodies id2 = some j2)
    (hbr : (impact_branch info a (normal_speed (CollisionEvent.body rv cts) bodies id2)
        (min ((bodies.getD j1 rbDefault).mass) ((bodies.getD j2 rbDefault).mass)) nz).2.1 =
      some sig)
    (hok : get_sound p (CollisionEvent.body rv cts) bodies id1 mat1 id2 mat2 a nz =
      Except.ok (some snd, s1)) :
    (impact_branch info a (normal_speed (CollisionEvent.body rv cts) bodies id2)
        (min ((bodies.getD j1 rbDefault).mass) ((bodies.getD j2 rbDefault).mass)) nz).1 =
      info.amp * normal_speed (CollisionEvent.body rv cts) bodies id2 / info.init_speed ∧
    snd = Base64Sound.ofSignal (normalize_signal
      (clamp_amp p.prevent_distortion
        (info.amp * normal_speed (CollisionEvent.body rv cts) bodies id2 / info.init_speed))
      sig) := by
  have hamp : (impact_branch info a (normal_speed (CollisionEvent.body rv cts) bodies id2)
      (min ((bodies.getD j1 rbDefault).mass) ((bodies.getD j2 rbDefault).mass)) nz).1 =
      info.amp * normal_speed (CollisionEvent.body rv cts) bodies id2 / info.init_speed := by
    rw [impact_branch_repeat _ _ _ _ _ hcount]
  refine ⟨hamp, ?_⟩
  rw [get_sound_cached p (CollisionEvent.body rv cts) bodies id1 mat1 id2 mat2 a nz info hpair,
    get_sound_core_resolved p rv cts bodies id1 id2 a nz info j1 j2 hi1 hi2] at hok
  rcases hIB : impact_branch info a (normal_speed (CollisionEvent.body rv cts) bodies id2)
      (min ((bodies.getD j1 rbDefault).mass) ((bodies.getD j2 rbDefault).mass)) nz with
    ⟨amp0, sopt, info1⟩
  rw [hIB] at hok hbr hamp
  simp only at hbr hamp
  subst hbr
  simp only [Except.ok.injEq, Prod.mk.injEq, Option.some.injEq] at hok
  rw [← hok.1, ← hamp]

/-- Witness for C6 at the concrete repeat-collision scenario. -/
theorem c6_witness :
    (impact_branch infoX 1 (normal_speed (CollisionEvent.body vX [vX]) bodiesX 2)
        (min ((bodiesX.getD 0 rbDefault).mass) ((bodiesX.getD 1 rbDefault).mass)) nzX).1 =
      infoX.amp * normal_speed (CollisionEvent.body vX [vX]) bodiesX 2 / infoX.init_speed ∧
    Base64Sound.ofSignal (normalize_signal
        (clamp_amp true (1 / 2 * normal_speed collX bodiesX 2 / 1)) sigX) =
      Base64Sound.ofSignal (normalize_signal
        (clamp_amp pX.prevent_distortion
          (infoX.amp * normal_speed (CollisionEvent.body vX [vX]) bodiesX 2 /
            infoX.init_speed)) sigX) :=
  c6_repeat_amplitude pX vX [vX] bodiesX 1 "wood" 2 "wood" 1 nzX infoX 0 1 sigX
    (Base64Sound.ofSignal (normalize_signal
      (clamp_amp true (1 / 2 * normal_speed collX bodiesX 2 / 1)) sigX))
    (set_pair pX 2 1 ⟨2, 1 / 2, 1, m1X, m2Xp⟩)
    find_pair_X (by norm_num [infoX]) last_index_X1 last_index_X2
    (by
      rw [show min ((bodiesX.getD 0 rbDefault).mass) ((bodiesX.getD 1 rbDefault).mass) = 1 by
          norm_num [bodiesX],
        show CollisionEvent.body vX [vX] = collX from rfl, branch_X])
    get_sound_X

/-! ## Claim C9: the encoded output record -/

/-- The `num_frames` field of a play command, when the result is one. -/
def result_num_frames : Except Unit (AudioCommand × PyImpact) → Option ℕ
  | Except.ok (AudioCommand.play _ _ nf _ _ _ _, _) => some nf
  | _ => none

/-- The byte length of a play command's PCM buffer, when the result is one. -/
def result_byte_len : Except Unit (AudioCommand × PyImpact) → Option ℕ
  | Except.ok (AudioCommand.play _ _ _ _ _ wav _, _) => some wav.length
  | _ => none

/-- **C9** (amended): a successful synthesis is reported as a play command
whose `num_frames` field carries `impact_audio.length` — the byte length of
the 16-bit mono PCM buffer, i.e. twice the number of 16-bit frames, not the
frame count — with one channel at 44100 Hz, and the byte length itself is
correct (2 bytes per sample of the underlying signal). -/
theorem c9_output_encoding (p : PyImpact) (collision : CollisionEvent)
    (bodies : List Rigidbody) (target_id : ℤ) (target_mat : String) (target_amp : ℝ)
    (other_id : ℤ) (other_mat : String) (other_amp : ℝ) (pad : Bool) (nz : GetSoundNoise)
    (snd : Base64Sound) (s1 : PyImpact)
    (hok : get_sound p collision bodies other_id other_mat target_id target_mat
        (other_amp / target_amp) nz = Except.ok (some snd, s1)) :
    get_impact_sound_command p collision bodies target_id target_mat target_amp
        other_id other_mat other_amp pad nz =
      Except.ok (AudioCommand.play pad target_id snd.length 1 44100 snd.wav_bytes (1 / 10),
        s1) ∧
      snd.length = snd.wav_bytes.length ∧
      ∃ sig, snd = Base64Sound.ofSignal sig ∧ snd.length = 2 * sig.length := by
  refine ⟨?_, ?_⟩
  · unfold get_impact_sound_command
    rw [hok]
  · obtain ⟨info, s, hc, hcore⟩ := get_sound_ok_cases p collision bodies other_id other_mat
      target_id target_mat (other_amp / target_amp) nz (some snd) s1 hok
    rcases get_sound_core_cases s collision bodies other_id target_id (other_amp / target_amp)
        nz info (some snd) s1 hcore with
      ⟨hr, _⟩ | ⟨mass, amp0, info1, hIB, hr, _⟩ | ⟨mass, amp0, snd0, info1, hIB, hr, _⟩
    · cases hr
    · cases hr
    · simp only [Option.some.injEq] at hr
      subst hr
      refine ⟨rfl, normalize_signal (clamp_amp s.prevent_distortion amp0) snd0, rfl, ?_⟩
      exact length_ofSignal _

/-- Counterexample to C9 as stated: in the concrete repeat-collision run the
synthesized signal has 45 samples, so the PCM buffer holds 90 bytes; the
command reports `num_frames = 90` (the byte length), not `90 / 2 = 45`. -/
theorem c9_counterexample :
    result_num_frames
        (get_impact_sound_command pX collX bodiesX 2 "wood" 1 1 "wood" 1 true nzX) =
      some 90 ∧
      result_byte_len
        (get_impact_sound_command pX collX bodiesX 2 "wood" 1 1 "wood" 1 true nzX) =
      some 90 ∧
      ((90 : ℕ) = 90 / 2 → False) := by
  have hg : get_sound pX collX bodiesX 1 "wood" 2 "wood" ((1 : ℝ) / 1) nzX =
      Except.ok (some (Base64Sound.ofSignal (normalize_signal
          (clamp_amp true (1 / 2 * normal_speed collX bodiesX 2 / 1)) sigX)),
        set_pair pX 2 1 ⟨2, 1 / 2, 1, m1X, m2Xp⟩) := by
    rw [show ((1 : ℝ) / 1) = 1 by norm_num]
    exact get_sound_X
  have hcmd : get_impact_sound_command pX collX bodiesX 2 "wood" 1 1 "wood" 1 true nzX =
      Except.ok (AudioCommand.play true 2
        (Base64Sound.ofSignal (normalize_signal
          (clamp_amp true (1 / 2 * normal_speed collX bodiesX 2 / 1)) sigX)).length 1 44100
        (Base64Sound.ofSignal (normalize_signal
          (clamp_amp true (1 / 2 * normal_speed collX bodiesX 2 / 1)) sigX)).wav_bytes
        (1 / 10), set_pair pX 2 1 ⟨2, 1 / 2, 1, m1X, m2Xp⟩) := by
    unfold get_impact_sound_command
    rw [hg]
  have hlen : (Base64Sound.ofSignal (normalize_signal
      (clamp_amp true (1 / 2 * normal_speed collX bodiesX 2 / 1)) sigX)).length = 90 := by
    rw [length_ofSignal, length_normalize_signal, length_sigX]
  have hwav : (Base64Sound.ofSignal (normalize_signal
      (clamp_amp true (1 / 2 * normal_speed collX bodiesX 2 / 1)) sigX)).wav_bytes.length =
      90 := by
    show (pcm16_bytes _).length = 90
    rw [length_pcm16_bytes, length_normalize_signal, length_sigX]
  rw [hcmd]
  refine ⟨?_, ?_, by norm_num⟩
  · simp only [result_num_frames, hlen]
  · simp only [result_byte_len, hwav]

/-- Witness for C9 at the concrete repeat-collision scenario. -/
theorem c9_witness :
    get_impact_sound_command pX collX bodiesX 2 "wood" 1 1 "wood" 1 true nzX =
      Except.ok (AudioCommand.play true 2
        (Base64Sound.ofSignal (normalize_signal
          (clamp_amp true (1 / 2 * normal_speed collX bodiesX 2 / 1)) sigX)).length 1 44100
        (Base64Sound.ofSignal (normalize_signal
          (clamp_amp true (1 / 2 * normal_speed collX bodiesX 2 / 1)) sigX)).wav_bytes
        (1 / 10), set_pair pX 2 1 ⟨2, 1 / 2, 1, m1X, m2Xp⟩) ∧
      (Base64Sound.ofSignal (normalize_signal
          (clamp_amp true (1 / 2 * normal_speed collX bodiesX 2 / 1)) sigX)).length =
        (Base64Sound.ofSignal (normalize_signal
          (clamp_amp true (1 / 2 * normal_speed collX bodiesX 2 / 1)) sigX)).wav_bytes.length ∧
      ∃ sig, Base64Sound.ofSignal (normalize_signal
          (clamp_amp true (1 / 2 * normal_speed collX bodiesX 2 / 1)) sigX) =
          Base64Sound.ofSignal sig ∧
        (Base64Sound.ofSignal (normalize_signal
          (clamp_amp true (1 / 2 * normal_speed collX bodiesX 2 / 1)) sigX)).length =
          2 * sig.length :=
  c9_output_encoding pX collX bodiesX 2 "wood" 1 1 "wood" 1 true nzX
    (Base64Sound.ofSignal (normalize_signal
      (clamp_amp true (1 / 2 * normal_speed collX bodiesX 2 / 1)) sigX))
    (set_pair pX 2 1 ⟨2, 1 / 2, 1, m1X, m2Xp⟩)
    (by rw [show ((1 : ℝ) / 1) = 1 by norm_num]; exact get_sound_X)

end

end TDW
